import Mathlib

/-!
Shallow embedding of src/app.py (RhythrosaLabs/auto_biz): an LLM-driven
business-plan generator.  The external OpenAI chat service is modelled as an
oracle indexed by the global call number; UI side effects (progress bar,
status text) carry no control meaning and are omitted except for the
user-visible error messages emitted by get_section_from_llm, which are
returned explicitly.
-/

namespace AutoBiz

/-- Model of Python str.lower: lower-case every character. -/
def str_lower (s : String) : String := ⟨s.data.map Char.toLower⟩

/-- Model of the Python substring test needle in hay. -/
def str_contains (hay needle : String) : Bool := decide (needle.data <:+: hay.data)

/-- Model of Python str.strip: drop whitespace from both ends. -/
def str_strip (s : String) : String :=
  ⟨(((s.data.dropWhile Char.isWhitespace).reverse.dropWhile Char.isWhitespace).reverse)⟩

/-- Model of the Python expression (sep.join with sep = comma-space). -/
def join_comma : List String → String
  | [] => ""
  | [c] => c
  | c :: d :: rest => c ++ ", " ++ join_comma (d :: rest)

/-- The external text-generation service, as an oracle: given the global call
number and the prompt, it answers with generated text or raises an error
(modelled as the error branch of Except). -/
abbrev Service := Nat → String → Except String String

/-- Result of one service call: the text obtained for this attempt plus the
user-visible error messages emitted (via st.error) while obtaining it. -/
structure LlmResult where
  text : String
  messages : List String
  deriving Repr, DecidableEq

/-- Embedding of get_section_from_llm (src/app.py lines 6-21): call the
service; on success return the stripped message content, on any exception
report the error as a user-visible message and return the empty string. -/
def get_section_from_llm (svc : Service) (k : Nat) (prompt : String) : LlmResult :=
  match svc k prompt with
  | Except.ok content => ⟨str_strip content, []⟩
  | Except.error e => ⟨"", ["Error calling OpenAI API: " ++ e]⟩

/-- Result of validate_section: the is_valid flag and the feedback mapping
from criterion phrase to "Present" or "Missing", in criteria order. -/
structure ValidationResult where
  is_valid : Bool
  feedback : List (String × String)
  deriving Repr, DecidableEq

/-- Embedding of validate_section (src/app.py lines 23-28). -/
def validate_section (sectionText : String) (criteria : List String) : ValidationResult :=
  let validation := criteria.map fun criterion =>
    (criterion, str_contains (str_lower sectionText) (str_lower criterion))
  { is_valid := validation.all fun p => p.2
    feedback := validation.map fun p => (p.1, if p.2 then "Present" else "Missing") }

/-- Embedding of create_feedback_prompt (src/app.py lines 30-43). -/
def create_feedback_prompt (section_name : String) (validation_result : ValidationResult)
    (current_section : String) : String :=
  if !validation_result.is_valid then
    let missing_criteria := (validation_result.feedback.filter fun p => p.2 == "Missing").map Prod.fst
    "\nThe current " ++ section_name ++ " section needs improvement:\nMissing criteria: " ++
      join_comma missing_criteria ++ "\n\nCurrent section:\n" ++ current_section ++
      "\n\nPlease revise the " ++ section_name ++
      " section to address these missing points. \nProvide only the revised section without any explanations.\n"
  else "The section meets all criteria."

/-- The fixed section table of generate_business_plan (src/app.py lines 46-55),
in source order (Python dicts preserve insertion order). -/
def sections : List (String × List String) := [
  ("Executive Summary", ["business concept", "financial features", "financial requirements"]),
  ("Company Description", ["company goals", "target market", "competitive advantage"]),
  ("Market Analysis", ["industry description", "target market", "market test results"]),
  ("Organization & Management", ["organizational structure", "management team", "board of advisors"]),
  ("Product Line", ["product description", "competitive comparison", "sales literature"]),
  ("Marketing & Sales", ["marketing strategy", "sales force", "sales activities"]),
  ("Funding Request", ["current funding requirement", "future funding requirements", "use of funds"]),
  ("Financial Projections", ["income statements", "cash flow statements", "balance sheets"])]

/-- The initial request prompt of src/app.py line 64. -/
def initial_prompt (section_name : String) (criteria : List String) : String :=
  "Write a " ++ section_name ++ " section for a business plan. Include information about: " ++
    join_comma criteria ++ "."

/-- Embedding of the inner improvement loop of src/app.py lines 68-80
(for j in range(3), with the for-else fallthrough keeping the last text).
The fuel argument counts the remaining iterations, k the global call number;
the result pairs the final section text with the call number after the loop. -/
def section_loop (svc : Service) (section_name : String) (criteria : List String) :
    String → Nat → Nat → String × Nat
  | current_section, k, 0 => (current_section, k)
  | current_section, k, fuel + 1 =>
    let validation_result := validate_section current_section criteria
    if validation_result.is_valid then (current_section, k)
    else
      let feedback_prompt := create_feedback_prompt section_name validation_result current_section
      section_loop svc section_name criteria
        (get_section_from_llm svc k feedback_prompt).text (k + 1) fuel

/-- One iteration of the outer loop of generate_business_plan for a single
section (src/app.py lines 64-80): initial call, then up to 3 corrective
iterations.  k is the global call number before the section starts. -/
def generate_section (svc : Service) (k : Nat) (section_name : String)
    (criteria : List String) : String × Nat :=
  let current_section := (get_section_from_llm svc k (initial_prompt section_name criteria)).text
  section_loop svc section_name criteria current_section (k + 1) 3

/-- The outer loop of generate_business_plan over the section table, threading
the global call number and accumulating the insertion-ordered plan mapping. -/
def plan_loop (svc : Service) : List (String × List String) → Nat → List (String × String)
  | [], _ => []
  | (section_name, criteria) :: rest, k =>
    let r := generate_section svc k section_name criteria
    (section_name, r.1) :: plan_loop svc rest r.2

/-- Embedding of generate_business_plan (src/app.py lines 45-84): the returned
plan as an insertion-ordered association list from section name to final text. -/
def generate_business_plan (svc : Service) : List (String × String) :=
  plan_loop svc sections 0

/-- The improvement loop generalized over the feedback-prompt builder; it is
used to state that the loop exercises the builder only on validation results
whose is_valid flag is false. -/
def section_loop_fb (fb : String → ValidationResult → String → String) (svc : Service)
    (section_name : String) (criteria : List String) : String → Nat → Nat → String × Nat
  | current_section, k, 0 => (current_section, k)
  | current_section, k, fuel + 1 =>
    let validation_result := validate_section current_section criteria
    if validation_result.is_valid then (current_section, k)
    else
      section_loop_fb fb svc section_name criteria
        (get_section_from_llm svc k (fb section_name validation_result current_section)).text
        (k + 1) fuel

/-- The initial request prompt as the spec words it (section 4.1, step 1): the
fixed template with the criteria joined by comma, here written with the library
joiner String.intercalate, for comparison with the source-derived
initial_prompt. -/
def spec_initial_prompt (section_name : String) (criteria : List String) : String :=
  "Write a " ++ section_name ++ " section for a business plan. Include information about: " ++
    String.intercalate ", " criteria ++ "."

/-- Helper for relating join_comma to String.intercalate: the comma-prefixed
tail of a comma join. -/
def comma_tail : List String → String
  | [] => ""
  | a :: as => ", " ++ a ++ comma_tail as

theorem str_contains_iff (hay needle : String) :
    str_contains hay needle = true ↔ needle.data <:+: hay.data := by
  simp [str_contains]

theorem str_contains_append_left (a b c : String) (h : str_contains a c = true) :
    str_contains (a ++ b) c = true := by
  rw [str_contains_iff] at h ⊢
  rw [String.data_append]
  exact h.trans (List.prefix_append a.data b.data).isInfix

theorem str_contains_append_right (a b c : String) (h : str_contains b c = true) :
    str_contains (a ++ b) c = true := by
  rw [str_contains_iff] at h ⊢
  rw [String.data_append]
  exact h.trans (List.suffix_append a.data b.data).isInfix

theorem str_contains_refl (s : String) : str_contains s s = true := by
  rw [str_contains_iff]

theorem str_contains_join_comma (l : List String) (c : String) (hc : c ∈ l) :
    str_contains (join_comma l) c = true := by
  induction l with
  | nil => cases hc
  | cons a rest ih =>
    cases rest with
    | nil =>
      rcases List.mem_cons.mp hc with rfl | hmem
      · exact str_contains_refl c
      · cases hmem
    | cons b rest2 =>
      rcases List.mem_cons.mp hc with rfl | hmem
      · show str_contains (c ++ ", " ++ join_comma (b :: rest2)) c = true
        exact str_contains_append_left _ _ _ (str_contains_append_left _ _ _ (str_contains_refl c))
      · show str_contains (a ++ ", " ++ join_comma (b :: rest2)) c = true
        exact str_contains_append_right _ _ _ (ih hmem)

theorem validate_section_feedback_eq (sectionText : String) (criteria : List String) :
    (validate_section sectionText criteria).feedback = criteria.map fun c =>
      (c, if str_contains (str_lower sectionText) (str_lower c) then "Present" else "Missing") := by
  simp [validate_section]

theorem validate_section_invalid_of_missing (sectionText c : String) (criteria : List String)
    (hc : c ∈ criteria) (hm : str_contains (str_lower sectionText) (str_lower c) = false) :
    (validate_section sectionText criteria).is_valid = false := by
  simp only [validate_section, List.all_eq_false, List.mem_map]
  exact ⟨(c, false), ⟨c, hc, by rw [hm]⟩, by simp⟩

/-- Claim C3: if each criterion phrase occurs case-insensitively as a substring
of the text, validate_section reports is_valid = true and marks every
criterion "Present". -/
theorem validate_section_all_present (sectionText : String) (criteria : List String)
    (h : ∀ c ∈ criteria, str_contains (str_lower sectionText) (str_lower c) = true) :
    (validate_section sectionText criteria).is_valid = true ∧
      ∀ p ∈ (validate_section sectionText criteria).feedback, p.2 = "Present" := by
  constructor
  · simp only [validate_section, List.all_eq_true, List.mem_map]
    rintro x ⟨c, hc, rfl⟩
    simpa using h c hc
  · intro p hp
    rw [validate_section_feedback_eq] at hp
    rcases List.mem_map.mp hp with ⟨c, hc, rfl⟩
    simp [h c hc]

/-- Witness for claim C3 at a concrete text containing all three phrases of
the Executive Summary criteria with mixed capitalisation. -/
theorem validate_section_all_present_witness :
    (validate_section "We give the Business Concept, financial FEATURES, financial requirements."
        ["business concept", "financial features", "financial requirements"]).is_valid = true ∧
      ∀ p ∈ (validate_section "We give the Business Concept, financial FEATURES, financial requirements."
        ["business concept", "financial features", "financial requirements"]).feedback,
        p.2 = "Present" :=
  validate_section_all_present _ _ (by decide)

/-- Claim C4: if exactly one criterion phrase is missing from the text,
validate_section reports is_valid = false, marks that phrase "Missing" and
every other criterion "Present". -/
theorem validate_section_one_missing (sectionText : String) (criteria : List String) (c : String)
    (hc : c ∈ criteria)
    (hmiss : str_contains (str_lower sectionText) (str_lower c) = false)
    (hrest : ∀ d ∈ criteria, d ≠ c → str_contains (str_lower sectionText) (str_lower d) = true) :
    (validate_section sectionText criteria).is_valid = false ∧
      ∀ p ∈ (validate_section sectionText criteria).feedback,
        (p.1 = c → p.2 = "Missing") ∧ (p.1 ≠ c → p.2 = "Present") := by
  refine ⟨validate_section_invalid_of_missing sectionText c criteria hc hmiss, ?_⟩
  intro p hp
  rw [validate_section_feedback_eq] at hp
  rcases List.mem_map.mp hp with ⟨d, hd, rfl⟩
  by_cases hdc : d = c
  · subst hdc; simp [hmiss]
  · simp [hdc, hrest d hd hdc]

/-- Witness for claim C4 at a concrete text missing exactly the phrase
financial requirements. -/
theorem validate_section_one_missing_witness :
    (validate_section "business concept and financial features only"
        ["business concept", "financial features", "financial requirements"]).is_valid = false ∧
      ∀ p ∈ (validate_section "business concept and financial features only"
        ["business concept", "financial features", "financial requirements"]).feedback,
        (p.1 = "financial requirements" → p.2 = "Missing") ∧
        (p.1 ≠ "financial requirements" → p.2 = "Present") :=
  validate_section_one_missing _ _ _ (by decide) (by decide) (by decide)

/-- Claim C7: when the service call raises an error, get_section_from_llm
returns the empty string for the attempt and surfaces the error only as a
user-visible message; being a total function of the service outcome, it never
propagates the error to the caller. -/
theorem get_section_from_llm_error (svc : Service) (k : Nat) (prompt : String) (e : String)
    (h : svc k prompt = Except.error e) :
    get_section_from_llm svc k prompt = ⟨"", ["Error calling OpenAI API: " ++ e]⟩ := by
  simp [get_section_from_llm, h]

/-- Witness for claim C7 at a concrete always-failing service. -/
theorem get_section_from_llm_error_witness :
    get_section_from_llm (fun _ _ => Except.error "network down") 0 "p" =
      ⟨"", ["Error calling OpenAI API: network down"]⟩ :=
  get_section_from_llm_error _ 0 "p" "network down" rfl

theorem section_loop_zero (svc : Service) (section_name : String) (criteria : List String)
    (current : String) (k : Nat) :
    section_loop svc section_name criteria current k 0 = (current, k) := rfl

theorem section_loop_stop (svc : Service) (section_name : String) (criteria : List String)
    (current : String) (k fuel : Nat)
    (hv : (validate_section current criteria).is_valid = true) :
    section_loop svc section_name criteria current k (fuel + 1) = (current, k) := by
  rw [section_loop]
  simp [hv]

theorem section_loop_step (svc : Service) (section_name : String) (criteria : List String)
    (current : String) (k fuel : Nat)
    (hv : (validate_section current criteria).is_valid = false) :
    section_loop svc section_name criteria current k (fuel + 1) =
      section_loop svc section_name criteria
        (get_section_from_llm svc k (create_feedback_prompt section_name
          (validate_section current criteria) current)).text (k + 1) fuel := by
  rw [section_loop]
  simp [hv]

theorem section_loop_calls_le (svc : Service) (section_name : String) (criteria : List String) :
    ∀ (fuel : Nat) (current : String) (k : Nat),
      (section_loop svc section_name criteria current k fuel).2 ≤ k + fuel := by
  intro fuel
  induction fuel with
  | zero => intro current k; rw [section_loop_zero]; omega
  | succ n ih =>
    intro current k
    cases hv : (validate_section current criteria).is_valid
    · rw [section_loop_step svc section_name criteria current k n hv]
      have h := ih (get_section_from_llm svc k (create_feedback_prompt section_name
        (validate_section current criteria) current)).text (k + 1)
      omega
    · rw [section_loop_stop svc section_name criteria current k n hv]
      omega

/-- Claim C1: per section the loop makes at most 4 generation calls
(1 initial plus up to 3 corrective) and stops the first time validation
succeeds; in particular when the first generated text already validates,
exactly one call is made and that text becomes the final text. -/
theorem generate_section_calls (svc : Service) (k : Nat) (section_name : String)
    (criteria : List String) :
    (generate_section svc k section_name criteria).2 ≤ k + 4 ∧
      (∀ (current : String) (j fuel : Nat),
        (validate_section current criteria).is_valid = true →
        section_loop svc section_name criteria current j (fuel + 1) = (current, j)) ∧
      ((validate_section (get_section_from_llm svc k (initial_prompt section_name criteria)).text
          criteria).is_valid = true →
        generate_section svc k section_name criteria =
          ((get_section_from_llm svc k (initial_prompt section_name criteria)).text, k + 1)) := by
  refine ⟨?_, ?_, ?_⟩
  · have h := section_loop_calls_le svc section_name criteria 3
      (get_section_from_llm svc k (initial_prompt section_name criteria)).text (k + 1)
    rw [generate_section]
    omega
  · intro current j fuel hv
    exact section_loop_stop _ _ _ _ _ _ hv
  · intro hv
    rw [generate_section]
    show section_loop svc section_name criteria
      (get_section_from_llm svc k (initial_prompt section_name criteria)).text (k + 1) (2 + 1) =
      ((get_section_from_llm svc k (initial_prompt section_name criteria)).text, k + 1)
    rw [section_loop_stop _ _ _ _ _ _ hv]

/-- Witness for claim C1: a service whose first answer contains all three
Executive Summary phrases leads to exactly one call and that text as result. -/
theorem generate_section_calls_witness :
    (generate_section
        (fun _ _ => Except.ok "business concept financial features financial requirements") 0
        "Executive Summary"
        ["business concept", "financial features", "financial requirements"]).2 ≤ 0 + 4 ∧
      generate_section
        (fun _ _ => Except.ok "business concept financial features financial requirements") 0
        "Executive Summary"
        ["business concept", "financial features", "financial requirements"] =
        ("business concept financial features financial requirements", 0 + 1) ∧
      section_loop
        (fun _ _ => Except.ok "business concept financial features financial requirements")
        "Executive Summary" ["business concept", "financial features", "financial requirements"]
        "business concept financial features financial requirements" 5 2 =
        ("business concept financial features financial requirements", 5) := by
  refine ⟨(generate_section_calls _ 0 _ _).1, ?_, ?_⟩
  · exact (generate_section_calls
      (fun _ _ => Except.ok "business concept financial features financial requirements") 0
      "Executive Summary"
      ["business concept", "financial features", "financial requirements"]).2.2 (by decide)
  · exact (generate_section_calls
      (fun _ _ => Except.ok "business concept financial features financial requirements") 0
      "Executive Summary"
      ["business concept", "financial features", "financial requirements"]).2.1
      "business concept financial features financial requirements" 5 1 (by decide)

theorem plan_loop_map_fst (svc : Service) :
    ∀ (scs : List (String × List String)) (k : Nat),
      (plan_loop svc scs k).map Prod.fst = scs.map Prod.fst := by
  intro scs
  induction scs with
  | nil => intro k; rfl
  | cons p rest ih =>
    intro k
    cases p with
    | mk n c => simp [plan_loop, ih]

/-- Claim C2: for every behaviour of the generation service the returned plan
mapping has exactly the 8 fixed section names as keys, in their fixed order. -/
theorem generate_business_plan_keys (svc : Service) :
    (generate_business_plan svc).map Prod.fst =
      ["Executive Summary", "Company Description", "Market Analysis",
       "Organization & Management", "Product Line", "Marketing & Sales",
       "Funding Request", "Financial Projections"] := by
  rw [generate_business_plan, plan_loop_map_fst]
  rfl

/-- Claim C6: when none of the first three generated texts validates, the loop
makes exactly 4 generation calls for the section and the final text is
whatever the 4th call produced, which is not validated and raises no error. -/
theorem generate_section_exhausted (svc : Service) (k : Nat) (section_name : String)
    (criteria : List String) (t0 t1 t2 t3 : String)
    (h0 : t0 = (get_section_from_llm svc k (initial_prompt section_name criteria)).text)
    (hv0 : (validate_section t0 criteria).is_valid = false)
    (h1 : t1 = (get_section_from_llm svc (k + 1)
      (create_feedback_prompt section_name (validate_section t0 criteria) t0)).text)
    (hv1 : (validate_section t1 criteria).is_valid = false)
    (h2 : t2 = (get_section_from_llm svc (k + 2)
      (create_feedback_prompt section_name (validate_section t1 criteria) t1)).text)
    (hv2 : (validate_section t2 criteria).is_valid = false)
    (h3 : t3 = (get_section_from_llm svc (k + 3)
      (create_feedback_prompt section_name (validate_section t2 criteria) t2)).text) :
    generate_section svc k section_name criteria = (t3, k + 4) := by
  rw [generate_section]
  show section_loop svc section_name criteria
    (get_section_from_llm svc k (initial_prompt section_name criteria)).text (k + 1) (2 + 1) =
    (t3, k + 4)
  rw [← h0, section_loop_step _ _ _ _ _ _ hv0, ← h1]
  show section_loop svc section_name criteria t1 (k + 1 + 1) (1 + 1) = (t3, k + 4)
  rw [section_loop_step _ _ _ _ _ _ hv1]
  have e2 : (get_section_from_llm svc (k + 1 + 1)
      (create_feedback_prompt section_name (validate_section t1 criteria) t1)).text = t2 := by
    rw [h2]
  rw [e2]
  show section_loop svc section_name criteria t2 (k + 1 + 1 + 1) (0 + 1) = (t3, k + 4)
  rw [section_loop_step _ _ _ _ _ _ hv2]
  have e3 : (get_section_from_llm svc (k + 1 + 1 + 1)
      (create_feedback_prompt section_name (validate_section t2 criteria) t2)).text = t3 := by
    rw [h3]
  rw [e3, section_loop_zero]

/-- Witness for claim C6: a service that always answers a text never meeting
the Executive Summary criteria leads to exactly 4 calls and that text. -/
theorem generate_section_exhausted_witness :
    generate_section (fun _ _ => Except.ok "x") 0 "Executive Summary"
      ["business concept", "financial features", "financial requirements"] = ("x", 0 + 4) :=
  generate_section_exhausted (fun _ _ => Except.ok "x") 0 "Executive Summary"
    ["business concept", "financial features", "financial requirements"] "x" "x" "x" "x"
    rfl (by decide) rfl (by decide) rfl (by decide) rfl

theorem str_contains_lower_empty (c : String) (hne : c ≠ "") :
    str_contains (str_lower "") (str_lower c) = false := by
  have hd : c.data ≠ [] := by
    intro h
    exact hne (String.ext (by rw [h]))
  rw [← Bool.not_eq_true, str_contains_iff]
  intro h
  have hnil : (str_lower "").data = [] := rfl
  rw [hnil] at h
  have hmap : (str_lower c).data = [] := List.infix_nil.mp h
  simp only [str_lower, List.map_eq_nil_iff] at hmap
  exact hd hmap

/-- Claim C10: if every service call fails, every attempt yields the empty
string: validation of the empty string marks each non-empty criterion phrase
"Missing", so all 4 calls are made, and the section still ends in the plan
with empty text and no error. -/
theorem generate_section_all_errors (svc : Service) (k : Nat) (section_name : String)
    (criteria : List String) (c : String)
    (hsvc : ∀ j p, ∃ e, svc j p = Except.error e)
    (hc : c ∈ criteria) (hne : c ≠ "") :
    generate_section svc k section_name criteria = ("", k + 4) ∧
      ∀ d ∈ criteria, d ≠ "" → (d, "Missing") ∈ (validate_section "" criteria).feedback := by
  have hllm : ∀ j p, (get_section_from_llm svc j p).text = "" := by
    intro j p
    obtain ⟨e, he⟩ := hsvc j p
    simp [get_section_from_llm, he]
  have hval : (validate_section "" criteria).is_valid = false :=
    validate_section_invalid_of_missing "" c criteria hc (str_contains_lower_empty c hne)
  constructor
  · rw [generate_section]
    show section_loop svc section_name criteria
      (get_section_from_llm svc k (initial_prompt section_name criteria)).text (k + 1) (2 + 1) =
      ("", k + 4)
    rw [hllm, section_loop_step _ _ _ _ _ _ hval, hllm]
    show section_loop svc section_name criteria "" (k + 1 + 1) (1 + 1) = ("", k + 4)
    rw [section_loop_step _ _ _ _ _ _ hval, hllm]
    show section_loop svc section_name criteria "" (k + 1 + 1 + 1) (0 + 1) = ("", k + 4)
    rw [section_loop_step _ _ _ _ _ _ hval, hllm, section_loop_zero]
  · intro d hd hdne
    rw [validate_section_feedback_eq]
    refine List.mem_map.mpr ⟨d, hd, ?_⟩
    rw [str_contains_lower_empty d hdne]
    simp

/-- Witness for claim C10 at a concrete always-erroring service. -/
theorem generate_section_all_errors_witness :
    generate_section (fun _ _ => Except.error "boom") 0 "Executive Summary"
      ["business concept", "financial features", "financial requirements"] = ("", 0 + 4) :=
  (generate_section_all_errors (fun _ _ => Except.error "boom") 0 "Executive Summary"
    ["business concept", "financial features", "financial requirements"] "business concept"
    (fun _ _ => ⟨"boom", rfl⟩) (by decide) (by decide)).1

theorem feedback_missing_mem (T c : String) (criteria : List String) (hc : c ∈ criteria)
    (hm : str_contains (str_lower T) (str_lower c) = false) :
    (c, "Missing") ∈ (validate_section T criteria).feedback := by
  rw [validate_section_feedback_eq]
  refine List.mem_map.mpr ⟨c, hc, ?_⟩
  rw [hm]
  simp

theorem mem_missing_list (T c : String) (criteria : List String) (hc : c ∈ criteria)
    (hm : str_contains (str_lower T) (str_lower c) = false) :
    c ∈ (((validate_section T criteria).feedback.filter fun p => p.2 == "Missing").map Prod.fst) :=
  List.mem_map.mpr ⟨(c, "Missing"),
    List.mem_filter.mpr ⟨feedback_missing_mem T c criteria hc hm, by simp⟩, rfl⟩

/-- Claim C5: when the validation of text T leaves criteria X and Y missing,
the feedback prompt contains X, contains Y, and contains the full text T
verbatim as substrings. -/
theorem create_feedback_prompt_contains (section_name T : String) (criteria : List String)
    (X Y : String) (hX : X ∈ criteria) (hY : Y ∈ criteria)
    (hmX : str_contains (str_lower T) (str_lower X) = false)
    (hmY : str_contains (str_lower T) (str_lower Y) = false) :
    str_contains (create_feedback_prompt section_name (validate_section T criteria) T) X = true ∧
      str_contains (create_feedback_prompt section_name (validate_section T criteria) T) Y = true ∧
      str_contains (create_feedback_prompt section_name (validate_section T criteria) T) T =
        true := by
  have hval : (validate_section T criteria).is_valid = false :=
    validate_section_invalid_of_missing T X criteria hX hmX
  rw [create_feedback_prompt, hval]
  simp only [Bool.not_false, if_true]
  refine ⟨?_, ?_, ?_⟩
  · exact str_contains_append_left _ _ _ (str_contains_append_left _ _ _
      (str_contains_append_left _ _ _ (str_contains_append_left _ _ _
        (str_contains_append_left _ _ _ (str_contains_append_right _ _ _
          (str_contains_join_comma _ X (mem_missing_list T X criteria hX hmX)))))))
  · exact str_contains_append_left _ _ _ (str_contains_append_left _ _ _
      (str_contains_append_left _ _ _ (str_contains_append_left _ _ _
        (str_contains_append_left _ _ _ (str_contains_append_right _ _ _
          (str_contains_join_comma _ Y (mem_missing_list T Y criteria hY hmY)))))))
  · exact str_contains_append_left _ _ _ (str_contains_append_left _ _ _
      (str_contains_append_left _ _ _ (str_contains_append_right _ _ _
        (str_contains_refl T))))

/-- Witness for claim C5 at a concrete text missing the phrases business
concept and financial features. -/
theorem create_feedback_prompt_contains_witness :
    str_contains (create_feedback_prompt "Executive Summary"
        (validate_section "We include financial requirements."
          ["business concept", "financial features", "financial requirements"])
        "We include financial requirements.") "business concept" = true ∧
      str_contains (create_feedback_prompt "Executive Summary"
        (validate_section "We include financial requirements."
          ["business concept", "financial features", "financial requirements"])
        "We include financial requirements.") "financial features" = true ∧
      str_contains (create_feedback_prompt "Executive Summary"
        (validate_section "We include financial requirements."
          ["business concept", "financial features", "financial requirements"])
        "We include financial requirements.") "We include financial requirements." = true :=
  create_feedback_prompt_contains "Executive Summary" "We include financial requirements."
    ["business concept", "financial features", "financial requirements"]
    "business concept" "financial features" (by decide) (by decide) (by decide) (by decide)

theorem intercalate_go_comma (as : List String) : ∀ (acc : String),
    String.intercalate.go acc ", " as = acc ++ comma_tail as := by
  induction as with
  | nil => intro acc; simp [String.intercalate.go, comma_tail]
  | cons a rest ih =>
    intro acc
    simp [String.intercalate.go, comma_tail, ih, String.append_assoc]

theorem join_comma_cons (as : List String) : ∀ (a : String),
    join_comma (a :: as) = a ++ comma_tail as := by
  induction as with
  | nil => intro a; simp [join_comma, comma_tail]
  | cons b rest ih =>
    intro a
    rw [join_comma, ih b, comma_tail, String.append_assoc, String.append_assoc]

theorem join_comma_eq_intercalate (l : List String) :
    join_comma l = String.intercalate ", " l := by
  cases l with
  | nil => rfl
  | cons a as => rw [String.intercalate, intercalate_go_comma, join_comma_cons]

/-- Claim C8: the initial request prompt is exactly the spec template, the
section name and the criteria joined by comma substituted in; in particular
the 8 fixed sections yield the 8 expected literal prompts. -/
theorem initial_prompt_spec :
    (∀ section_name criteria, initial_prompt section_name criteria =
      spec_initial_prompt section_name criteria) ∧
      sections.map (fun p => initial_prompt p.1 p.2) =
        ["Write a Executive Summary section for a business plan. Include information about: business concept, financial features, financial requirements.",
         "Write a Company Description section for a business plan. Include information about: company goals, target market, competitive advantage.",
         "Write a Market Analysis section for a business plan. Include information about: industry description, target market, market test results.",
         "Write a Organization & Management section for a business plan. Include information about: organizational structure, management team, board of advisors.",
         "Write a Product Line section for a business plan. Include information about: product description, competitive comparison, sales literature.",
         "Write a Marketing & Sales section for a business plan. Include information about: marketing strategy, sales force, sales activities.",
         "Write a Funding Request section for a business plan. Include information about: current funding requirement, future funding requirements, use of funds.",
         "Write a Financial Projections section for a business plan. Include information about: income statements, cash flow statements, balance sheets."] := by
  constructor
  · intro section_name criteria
    rw [initial_prompt, spec_initial_prompt, join_comma_eq_intercalate]
  · decide

/-- Counterexample to claim C9 as stated: with current text all, the valid
branch does return the fixed string, but that string contains the current
text as a substring, contradicting the claim that it never does. -/
theorem create_feedback_prompt_valid_counterexample :
    (validate_section "all" ["all"]).is_valid = true ∧
      create_feedback_prompt "Executive Summary" (validate_section "all" ["all"]) "all" =
        "The section meets all criteria." ∧
      str_contains
        (create_feedback_prompt "Executive Summary" (validate_section "all" ["all"]) "all")
        "all" = true := by
  decide

/-- Claim C9 (amended): on a validation result with is_valid = true,
create_feedback_prompt returns the fixed string "The section meets all
criteria." regardless of the current text (that fixed string can still happen
to contain the current text as a substring); and the improvement loop never
exercises this branch: its outcome depends on the feedback-prompt builder
only through the builder's values on invalid validation results. -/
theorem create_feedback_prompt_valid_branch (section_name : String) (vr : ValidationResult)
    (current_section : String) (fb : String → ValidationResult → String → String)
    (svc : Service) (name2 : String) (criteria : List String) (cur : String) (k fuel : Nat)
    (hv : vr.is_valid = true)
    (hfb : ∀ n v c, v.is_valid = false → fb n v c = create_feedback_prompt n v c) :
    create_feedback_prompt section_name vr current_section = "The section meets all criteria." ∧
      section_loop_fb fb svc name2 criteria cur k fuel =
        section_loop svc name2 criteria cur k fuel := by
  constructor
  · rw [create_feedback_prompt, hv]
    simp
  · induction fuel generalizing cur k with
    | zero => rfl
    | succ n ih =>
      rw [section_loop_fb, section_loop]
      cases h : (validate_section cur criteria).is_valid
      · simp only [h, Bool.false_eq_true, if_false]
        rw [hfb name2 (validate_section cur criteria) cur h]
        exact ih _ _
      · simp [h]

/-- Witness for claim C9 at a concrete valid result and a builder agreeing
with create_feedback_prompt on invalid results. -/
theorem create_feedback_prompt_valid_branch_witness :
    create_feedback_prompt "Funding Request" (validate_section "all" ["all"]) "some text" =
        "The section meets all criteria." ∧
      section_loop_fb create_feedback_prompt (fun _ _ => Except.ok "y") "Funding Request"
          ["use of funds"] "start" 0 3 =
        section_loop (fun _ _ => Except.ok "y") "Funding Request"
          ["use of funds"] "start" 0 3 :=
  create_feedback_prompt_valid_branch "Funding Request" (validate_section "all" ["all"])
    "some text" create_feedback_prompt (fun _ _ => Except.ok "y") "Funding Request"
    ["use of funds"] "start" 0 3 (by decide) (fun _ _ _ _ => rfl)

end AutoBiz
